import Mathlib

/-!
Shallow embedding of the stock-analysis dashboard (src/app.py).

The app fetches a daily OHLC price series per ticker, computes four indicator
columns with pandas (SMA 200, rolling 250-bar high, RSI(14) with simple moving
averages, ATR(14)), classifies trend and upside room from the latest bar, and
sizes a position under a fixed-fractional risk rule.  Prices and rates are
modelled as exact rationals; a pandas cell that would be NaN is modelled as
Option.none.  Python's int() truncation toward zero is modelled explicitly.
-/

namespace StockAnalysis

/-- One row of the fetched OHLC table.  Only the High, Low and Close columns
are ever read by the analysis (Open and Volume are unused). -/
structure Bar where
  high : ℚ
  low : ℚ
  close : ℚ
deriving Repr, DecidableEq

def defaultBar : Bar := ⟨0, 0, 0⟩

/-- df at row i, column High (out-of-range reads never occur in the claims). -/
def highAt (s : List Bar) (i : ℕ) : ℚ := (s.getD i defaultBar).high

def lowAt (s : List Bar) (i : ℕ) : ℚ := (s.getD i defaultBar).low

def closeAt (s : List Bar) (i : ℕ) : ℚ := (s.getD i defaultBar).close

/-- The trailing window of n values ending at index i, as pandas rolling
windows read it (indices i, i-1, ..., i-n+1). -/
def windowList (f : ℕ → ℚ) (n i : ℕ) : List ℚ :=
  (List.range n).map (fun k => f (i - k))

/-- rolling(n).mean() at index i (defined in the columns only once i ≥ n-1). -/
def wmean (f : ℕ → ℚ) (n i : ℕ) : ℚ := (windowList f n i).sum / n

/-- rolling(n).max() at index i. -/
def rollMax (f : ℕ → ℚ) (n i : ℕ) : ℚ := (windowList f n i).foldr max (f i)

/-- SMA_200 column: Close.rolling(200).mean(); NaN before index 199. -/
def sma200 (s : List Bar) (i : ℕ) : Option ℚ :=
  if 199 ≤ i ∧ i < s.length then some (wmean (closeAt s) 200 i) else none

/-- High_52W column: High.rolling(250).max(); NaN before index 249. -/
def high52 (s : List Bar) (i : ℕ) : Option ℚ :=
  if 249 ≤ i ∧ i < s.length then some (rollMax (highAt s) 250 i) else none

/-- gain = delta.where(delta > 0, 0).  At row 0 the close-to-close diff is
NaN, the comparison NaN > 0 evaluates to False, and where substitutes 0. -/
def gain (s : List Bar) (i : ℕ) : ℚ :=
  if i = 0 then 0 else max (closeAt s i - closeAt s (i - 1)) 0

/-- loss = (-delta.where(delta < 0, 0)); the row-0 NaN again becomes 0. -/
def loss (s : List Bar) (i : ℕ) : ℚ :=
  if i = 0 then 0 else max (closeAt s (i - 1) - closeAt s i) 0

def avgGain (s : List Bar) (i : ℕ) : ℚ := wmean (gain s) 14 i

def avgLoss (s : List Bar) (i : ℕ) : ℚ := wmean (loss s) 14 i

/-- RSI column: 100 - 100/(1 + gain/loss).  In IEEE arithmetic loss = 0 with
gain > 0 gives rs = +inf and the formula collapses to exactly 100; loss = 0
with gain = 0 gives rs = NaN, i.e. no value. -/
def rsi (s : List Bar) (i : ℕ) : Option ℚ :=
  if 13 ≤ i ∧ i < s.length then
    if avgLoss s i = 0 then
      if 0 < avgGain s i then some 100 else none
    else
      some (100 - 100 / (1 + avgGain s i / avgLoss s i))
  else none

/-- Close.shift(): NaN at row 0. -/
def shiftClose (s : List Bar) (i : ℕ) : Option ℚ :=
  if i = 0 then none else some (closeAt s (i - 1))

/-- True range per bar: ranges.max(axis=1) over [high-low, |high-prev_close|,
|low-prev_close|].  DataFrame.max skips NaN cells, so at row 0 only
high - low survives. -/
def tr (s : List Bar) (i : ℕ) : ℚ :=
  match shiftClose s i with
  | none => highAt s i - lowAt s i
  | some pc =>
      max (highAt s i - lowAt s i) (max |highAt s i - pc| |lowAt s i - pc|)

/-- ATR column: true range rolling(14).mean(); NaN before index 13. -/
def atr (s : List Bar) (i : ℕ) : Option ℚ :=
  if 13 ≤ i ∧ i < s.length then some (wmean (tr s) 14 i) else none

/-- Python int() applied to a real number: truncation toward zero. -/
def truncQ (q : ℚ) : ℤ := if 0 ≤ q then ⌊q⌋ else ⌈q⌉

def stop_loss (close atrv mult : ℚ) : ℚ := close - mult * atrv

def risk_per_share_jpy (close atrv mult fx : ℚ) : ℚ :=
  (close - stop_loss close atrv mult) * fx

def allowable_risk (capital frac : ℚ) : ℚ := capital * frac

/-- shares = int(allowable_risk / risk_per_share_jpy). -/
def raw_shares (close atrv mult fx capital frac : ℚ) : ℤ :=
  truncQ (allowable_risk capital frac / risk_per_share_jpy close atrv mult fx)

/-- max_buy = int(INITIAL_CAPITAL_JPY / (Close * usd_jpy)). -/
def max_buy (close fx capital : ℚ) : ℤ := truncQ (capital / (close * fx))

/-- The share count the sizing block ends with: 0 unless
risk_per_share_jpy > 0, otherwise min(raw shares, max_buy). -/
def computeShares (close atrv mult fx capital frac : ℚ) : ℤ :=
  if 0 < risk_per_share_jpy close atrv mult fx then
    min (raw_shares close atrv mult fx capital frac) (max_buy close fx capital)
  else 0

inductive Trend
  | bullish
  | bearish
deriving Repr, DecidableEq

inductive Opportunity
  | atHighs
  | roomAvailable
  | nearResistance
deriving Repr, DecidableEq

def distToHighPct (close h52 : ℚ) : ℚ := (h52 - close) / close * 100

/-- The if/elif/else chain on lines 113-118 of app.py. -/
def classifyOpportunity (close h52 : ℚ) : Opportunity :=
  if h52 * (99 / 100) ≤ close then .atHighs
  else if 10 ≤ distToHighPct close h52 then .roomAvailable
  else .nearResistance

/-- is_bull = Close > SMA_200 at the latest bar. -/
def classifyTrend (close sma : ℚ) : Trend :=
  if sma < close then .bullish else .bearish

/-- Sidebar configuration: initial capital, risk tolerance fraction,
stop-loss ATR multiplier. -/
structure AccountConfig where
  capital : ℚ
  frac : ℚ
  mult : ℚ
deriving Repr, DecidableEq

/-- What the dashboard shows for one ticker that passed the length guard. -/
structure Report where
  trend : Trend
  rsiValue : Option ℚ
  opportunity : Opportunity
  recommendation : Option (ℚ × ℤ)
deriving Repr, DecidableEq

inductive AnalysisResult
  | insufficientData
  | report (r : Report)
deriving Repr, DecidableEq

/-- The per-ticker body of the main loop: length guard, indicator columns,
trend, opportunity category, and (only when bullish) the stop-loss /
share-count recommendation. -/
def analyzeTicker (cfg : AccountConfig) (fx : ℚ) (s : List Bar) : AnalysisResult :=
  if s.length < 250 then .insufficientData
  else
    let i := s.length - 1
    let close := closeAt s i
    let sma := (sma200 s i).getD 0
    let h52 := (high52 s i).getD 0
    let atrv := (atr s i).getD 0
    .report
      { trend := classifyTrend close sma
        rsiValue := rsi s i
        opportunity := classifyOpportunity close h52
        recommendation :=
          if sma < close then
            some (stop_loss close atrv cfg.mult,
                  computeShares close atrv cfg.mult fx cfg.capital cfg.frac)
          else none }

/-- The watchlist loop: each ticker is analyzed independently. -/
def runAll (cfg : AccountConfig) (fx : ℚ) (ss : List (List Bar)) :
    List AnalysisResult :=
  ss.map (analyzeTicker cfg fx)

/-! Demo inputs used by witnesses and counterexamples. -/

/-- Fourteen bars with strictly rising closes 1, 2, ..., 14. -/
def upSeries : List Bar :=
  [⟨1, 1, 1⟩, ⟨2, 2, 2⟩, ⟨3, 3, 3⟩, ⟨4, 4, 4⟩, ⟨5, 5, 5⟩, ⟨6, 6, 6⟩, ⟨7, 7, 7⟩,
   ⟨8, 8, 8⟩, ⟨9, 9, 9⟩, ⟨10, 10, 10⟩, ⟨11, 11, 11⟩, ⟨12, 12, 12⟩,
   ⟨13, 13, 13⟩, ⟨14, 14, 14⟩]

/-- Fourteen bars with strictly rising closes 2, 4, ..., 28. -/
def upSeries2 : List Bar :=
  [⟨2, 2, 2⟩, ⟨4, 4, 4⟩, ⟨6, 6, 6⟩, ⟨8, 8, 8⟩, ⟨10, 10, 10⟩, ⟨12, 12, 12⟩,
   ⟨14, 14, 14⟩, ⟨16, 16, 16⟩, ⟨18, 18, 18⟩, ⟨20, 20, 20⟩, ⟨22, 22, 22⟩,
   ⟨24, 24, 24⟩, ⟨26, 26, 26⟩, ⟨28, 28, 28⟩]

def constBar : Bar := ⟨100, 100, 100⟩

/-- A 250-bar series with every price equal to 100. -/
def constSeries : List Bar := List.replicate 250 constBar

def shortSeries : List Bar := List.replicate 100 constBar

def demoConfig : AccountConfig := ⟨200000, 1 / 20, 2⟩

/-- A two-ticker watchlist: one series too short, one long enough. -/
def demoWatch : List (List Bar) := [shortSeries, constSeries]

/-! Helper lemmas. -/

theorem truncQ_nonneg {q : ℚ} (h : 0 ≤ q) : 0 ≤ truncQ q := by
  rw [truncQ, if_pos h]
  exact Int.le_floor.mpr (by exact_mod_cast h)

theorem truncQ_le_self {q : ℚ} (h : 0 ≤ q) : (truncQ q : ℚ) ≤ q := by
  rw [truncQ, if_pos h]
  exact Int.floor_le q

theorem gain_nonneg (s : List Bar) (i : ℕ) : 0 ≤ gain s i := by
  rw [gain]
  split
  · exact le_refl 0
  · exact le_max_right _ 0

theorem loss_nonneg (s : List Bar) (i : ℕ) : 0 ≤ loss s i := by
  rw [loss]
  split
  · exact le_refl 0
  · exact le_max_right _ 0

theorem wmean_nonneg {f : ℕ → ℚ} (hf : ∀ j, 0 ≤ f j) (n i : ℕ) :
    0 ≤ wmean f n i := by
  rw [wmean]
  apply div_nonneg _ (by positivity)
  apply List.sum_nonneg
  intro x hx
  rw [windowList, List.mem_map] at hx
  obtain ⟨k, _, rfl⟩ := hx
  exact hf _

theorem wmean_eq_zero {f : ℕ → ℚ} {n i : ℕ} (h : ∀ k < n, f (i - k) = 0) :
    wmean f n i = 0 := by
  rw [wmean, windowList]
  have : ((List.range n).map fun k => f (i - k)).sum = 0 := by
    apply List.sum_eq_zero
    intro x hx
    rw [List.mem_map] at hx
    obtain ⟨k, hk, rfl⟩ := hx
    exact h k (List.mem_range.mp hk)
  rw [this, zero_div]

theorem closeAt_constSeries {i : ℕ} (h : i < 250) : closeAt constSeries i = 100 := by
  rw [closeAt, constSeries, List.getD_eq_getElem?_getD, List.getElem?_replicate,
    if_pos h]
  rfl

theorem gain_eq_zero {s : List Bar} {j : ℕ}
    (h : closeAt s j ≤ closeAt s (j - 1)) : gain s j = 0 := by
  rw [gain]
  split
  · rfl
  · exact max_eq_right (sub_nonpos.mpr h)

theorem loss_eq_zero {s : List Bar} {j : ℕ}
    (h : closeAt s (j - 1) ≤ closeAt s j) : loss s j = 0 := by
  rw [loss]
  split
  · rfl
  · exact max_eq_right (sub_nonpos.mpr h)

theorem avgLoss_upSeries : avgLoss upSeries 13 = 0 := by
  rw [avgLoss]
  apply wmean_eq_zero
  intro k hk
  apply loss_eq_zero
  interval_cases k <;> norm_num [closeAt, upSeries, defaultBar]

theorem avgGain_upSeries_pos : 0 < avgGain upSeries 13 := by
  rw [avgGain, wmean, windowList,
    show List.range 14 = [0, 1, 2, 3, 4, 5, 6, 7, 8, 9, 10, 11, 12, 13] from by decide]
  norm_num [gain, closeAt, upSeries, defaultBar]

theorem avgLoss_upSeries2 : avgLoss upSeries2 13 = 0 := by
  rw [avgLoss]
  apply wmean_eq_zero
  intro k hk
  apply loss_eq_zero
  interval_cases k <;> norm_num [closeAt, upSeries2, defaultBar]

theorem avgGain_upSeries2_pos : 0 < avgGain upSeries2 13 := by
  rw [avgGain, wmean, windowList,
    show List.range 14 = [0, 1, 2, 3, 4, 5, 6, 7, 8, 9, 10, 11, 12, 13] from by decide]
  norm_num [gain, closeAt, upSeries2, defaultBar]

theorem avgLoss_constSeries : avgLoss constSeries 249 = 0 := by
  rw [avgLoss]
  apply wmean_eq_zero
  intro k hk
  apply loss_eq_zero
  rw [closeAt_constSeries (by omega), closeAt_constSeries (by omega)]

theorem avgGain_constSeries : avgGain constSeries 249 = 0 := by
  rw [avgGain]
  apply wmean_eq_zero
  intro k hk
  apply gain_eq_zero
  rw [closeAt_constSeries (by omega), closeAt_constSeries (by omega)]

theorem constSeries_length : constSeries.length = 250 := by
  rw [constSeries, List.length_replicate]

theorem shortSeries_length : shortSeries.length = 100 := by
  rw [shortSeries, List.length_replicate]

theorem upSeries_length : upSeries.length = 14 := rfl

theorem upSeries2_length : upSeries2.length = 14 := rfl

theorem tr_zero (s : List Bar) : tr s 0 = highAt s 0 - lowAt s 0 := rfl

theorem tr_pos (s : List Bar) {i : ℕ} (h : i ≠ 0) :
    tr s i = max (highAt s i - lowAt s i)
      (max |highAt s i - closeAt s (i - 1)| |lowAt s i - closeAt s (i - 1)|) := by
  rw [tr, shiftClose, if_neg h]

/-! Claim theorems. -/

/-- Claim C1: for all positive fx rate, close and initial capital, and for
every ATR value, ATR multiplier and risk-tolerance fraction, the recommended
position cost final_shares * close * fx_rate never exceeds initial_capital. -/
theorem shares_cost_le_capital (close atrv mult fx capital frac : ℚ)
    (hclose : 0 < close) (hfx : 0 < fx) (hcap : 0 < capital) :
    (computeShares close atrv mult fx capital frac : ℚ) * close * fx ≤ capital := by
  rw [computeShares]
  split_ifs with h
  · have hcf : (0 : ℚ) < close * fx := mul_pos hclose hfx
    have h1 : ((min (raw_shares close atrv mult fx capital frac)
        (max_buy close fx capital) : ℤ) : ℚ) ≤ ((max_buy close fx capital : ℤ) : ℚ) := by
      exact_mod_cast min_le_right _ _
    have h2 : ((max_buy close fx capital : ℤ) : ℚ) ≤ capital / (close * fx) := by
      rw [max_buy]
      exact truncQ_le_self (div_nonneg hcap.le hcf.le)
    calc ((min (raw_shares close atrv mult fx capital frac)
            (max_buy close fx capital) : ℤ) : ℚ) * close * fx
        = ((min (raw_shares close atrv mult fx capital frac)
            (max_buy close fx capital) : ℤ) : ℚ) * (close * fx) := by ring
      _ ≤ (capital / (close * fx)) * (close * fx) :=
          mul_le_mul_of_nonneg_right (h1.trans h2) hcf.le
      _ = capital := div_mul_cancel₀ _ (ne_of_gt hcf)
  · push_cast
    simpa using hcap.le

/-- Witness for C1 at close 100, ATR 1, multiplier 2, fx 150, capital 200000,
risk fraction 5 percent. -/
theorem shares_cost_le_capital_witness :
    (computeShares 100 1 2 150 200000 (1 / 20) : ℚ) * 100 * 150 ≤ 200000 :=
  shares_cost_le_capital 100 1 2 150 200000 (1 / 20) (by norm_num) (by norm_num)
    (by norm_num)

/-- Claim C2 counterexample: with a negative initial capital (the capital
input field has no lower bound) the sizing block returns a negative share
count; there is no flooring at 0 in the code. -/
theorem shares_negative_example :
    computeShares 100 1 2 150 (-200000) (1 / 20) < 0 := by
  have hrps : risk_per_share_jpy 100 1 2 150 = 300 := by
    rw [risk_per_share_jpy, stop_loss]; norm_num
  have hraw : raw_shares 100 1 2 150 (-200000) (1 / 20) = -33 := by
    rw [raw_shares, allowable_risk, hrps, truncQ, if_neg (by norm_num),
      Int.ceil_eq_iff]
    norm_num
  have hmax : max_buy 100 150 (-200000) = -13 := by
    rw [max_buy, truncQ, if_neg (by norm_num), Int.ceil_eq_iff]
    norm_num
  rw [computeShares, if_pos (by rw [hrps]; norm_num), hraw, hmax]
  decide

/-- Claim C2 (amended): when initial capital and the risk-tolerance fraction
are nonnegative and close and fx rate are positive, the share count is
nonnegative, for every ATR value and multiplier. -/
theorem computeShares_nonneg (close atrv mult fx capital frac : ℚ)
    (hclose : 0 < close) (hfx : 0 < fx) (hcap : 0 ≤ capital) (hfrac : 0 ≤ frac) :
    0 ≤ computeShares close atrv mult fx capital frac := by
  rw [computeShares]
  split_ifs with h
  · refine le_min ?_ ?_
    · rw [raw_shares, allowable_risk]
      exact truncQ_nonneg (div_nonneg (mul_nonneg hcap hfrac) h.le)
    · rw [max_buy]
      exact truncQ_nonneg (div_nonneg hcap (mul_pos hclose hfx).le)
  · exact le_refl 0

/-- Witness for the amended C2. -/
theorem computeShares_nonneg_witness :
    0 ≤ computeShares 100 1 2 150 200000 (1 / 20) :=
  computeShares_nonneg 100 1 2 150 200000 (1 / 20) (by norm_num) (by norm_num)
    (by norm_num) (by norm_num)

/-- Claim C3: the opportunity classification is total, the three outcomes are
mutually exclusive and exhaustive, and each outcome holds exactly under the
stated branch condition, evaluated in order: AtHighs first, then
RoomAvailable, else NearResistance. -/
theorem classifyOpportunity_total_exclusive (close h52 : ℚ) :
    (classifyOpportunity close h52 = .atHighs ∨
      classifyOpportunity close h52 = .roomAvailable ∨
      classifyOpportunity close h52 = .nearResistance) ∧
    (classifyOpportunity close h52 = .atHighs ↔ h52 * (99 / 100) ≤ close) ∧
    (classifyOpportunity close h52 = .roomAvailable ↔
      ¬ h52 * (99 / 100) ≤ close ∧ 10 ≤ distToHighPct close h52) ∧
    (classifyOpportunity close h52 = .nearResistance ↔
      ¬ h52 * (99 / 100) ≤ close ∧ ¬ 10 ≤ distToHighPct close h52) := by
  rw [classifyOpportunity]
  split_ifs with h1 h2 <;> simp_all

/-- Claim C6 counterexample: with a negative initial capital the risk
exposure exceeds the allowable risk even though the capital constraint is not
the binding one. -/
theorem risk_exposure_counterexample :
    ¬ ((computeShares 100 1 2 150 (-200000) (1 / 20) : ℚ) *
          risk_per_share_jpy 100 1 2 150 ≤ allowable_risk (-200000) (1 / 20) ∨
        (computeShares 100 1 2 150 (-200000) (1 / 20) = max_buy 100 150 (-200000) ∧
          max_buy 100 150 (-200000) < raw_shares 100 1 2 150 (-200000) (1 / 20))) := by
  have hrps : risk_per_share_jpy 100 1 2 150 = 300 := by
    rw [risk_per_share_jpy, stop_loss]; norm_num
  have hraw : raw_shares 100 1 2 150 (-200000) (1 / 20) = -33 := by
    rw [raw_shares, allowable_risk, hrps, truncQ, if_neg (by norm_num),
      Int.ceil_eq_iff]
    norm_num
  have hmax : max_buy 100 150 (-200000) = -13 := by
    rw [max_buy, truncQ, if_neg (by norm_num), Int.ceil_eq_iff]
    norm_num
  have hshares : computeShares 100 1 2 150 (-200000) (1 / 20) = -33 := by
    rw [computeShares, if_pos (by rw [hrps]; norm_num), hraw, hmax]
    decide
  rw [hshares, hrps, hmax, hraw, allowable_risk]
  push_neg
  constructor
  · norm_num
  · intro hc
    exact absurd hc (by decide)

/-- Claim C6 (amended): with nonnegative initial capital and risk-tolerance
fraction, the risk exposure final_shares * risk_per_share_jpy stays within
allowable_risk, except when the capital constraint binds (final_shares equals
max_buy which is below the raw share count). -/
theorem risk_exposure_bound (close atrv mult fx capital frac : ℚ)
    (hcap : 0 ≤ capital) (hfrac : 0 ≤ frac) :
    (computeShares close atrv mult fx capital frac : ℚ) *
        risk_per_share_jpy close atrv mult fx ≤ allowable_risk capital frac ∨
      (computeShares close atrv mult fx capital frac = max_buy close fx capital ∧
        max_buy close fx capital < raw_shares close atrv mult fx capital frac) := by
  rw [computeShares]
  split_ifs with h
  · rcases le_or_lt (raw_shares close atrv mult fx capital frac)
      (max_buy close fx capital) with hle | hlt
    · left
      rw [min_eq_left hle, ← le_div_iff₀ h]
      rw [raw_shares]
      exact truncQ_le_self
        (div_nonneg (by rw [allowable_risk]; exact mul_nonneg hcap hfrac) h.le)
    · right
      rw [min_eq_right hlt.le]
      exact ⟨rfl, hlt⟩
  · left
    push_cast
    rw [allowable_risk]
    simpa using mul_nonneg hcap hfrac

/-- Witness for the amended C6. -/
theorem risk_exposure_bound_witness :
    (computeShares 100 1 2 150 200000 (1 / 20) : ℚ) *
        risk_per_share_jpy 100 1 2 150 ≤ allowable_risk 200000 (1 / 20) ∨
      (computeShares 100 1 2 150 200000 (1 / 20) = max_buy 100 150 200000 ∧
        max_buy 100 150 200000 < raw_shares 100 1 2 150 200000 (1 / 20)) :=
  risk_exposure_bound 100 1 2 150 200000 (1 / 20) (by norm_num) (by norm_num)

/-- Claim C4: whenever the RSI cell is defined (the trailing 14-bar averages
exist) its value lies in [0, 100], and when the trailing average loss is zero
while the average gain is positive the RSI is exactly 100. -/
theorem rsi_range_and_saturation (s : List Bar) (i : ℕ) :
    (∀ v, rsi s i = some v → 0 ≤ v ∧ v ≤ 100) ∧
    (13 ≤ i → i < s.length → avgLoss s i = 0 → 0 < avgGain s i →
      rsi s i = some 100) := by
  have hg : 0 ≤ avgGain s i := wmean_nonneg (gain_nonneg s) 14 i
  have hl : 0 ≤ avgLoss s i := wmean_nonneg (loss_nonneg s) 14 i
  constructor
  · intro v hv
    rw [rsi] at hv
    split_ifs at hv with hguard hzero hpos
    · rw [Option.some_inj] at hv
      subst hv
      norm_num
    · rw [Option.some_inj] at hv
      subst hv
      have hlpos : 0 < avgLoss s i := lt_of_le_of_ne hl (Ne.symm hzero)
      have hrs : 0 ≤ avgGain s i / avgLoss s i := div_nonneg hg hl
      have hone : (0 : ℚ) < 1 + avgGain s i / avgLoss s i := by linarith
      have hle : 100 / (1 + avgGain s i / avgLoss s i) ≤ 100 := by
        rw [div_le_iff₀ hone]
        nlinarith
      have hpos2 : 0 < 100 / (1 + avgGain s i / avgLoss s i) := by positivity
      constructor <;> linarith
  · intro h1 h2 h3 h4
    rw [rsi, if_pos ⟨h1, h2⟩, if_pos h3, if_pos h4]

/-- Witness for C4: a fourteen-bar strictly rising series has zero average
loss and positive average gain at its last bar, so the RSI there is 100. -/
theorem rsi_range_and_saturation_witness : rsi upSeries 13 = some 100 :=
  (rsi_range_and_saturation upSeries 13).2 (by norm_num) (by decide)
    avgLoss_upSeries avgGain_upSeries_pos

/-- Claim C5: a series shorter than 250 bars yields the explicit insufficient
data outcome carrying no indicator values, the watchlist keeps one result per
ticker, and every ticker result depends only on that ticker series. -/
theorem short_series_insufficient (cfg : AccountConfig) (fx : ℚ)
    (ss : List (List Bar)) (k : ℕ) (hk : k < ss.length)
    (hshort : (ss.getD k []).length < 250) :
    (runAll cfg fx ss).getD k .insufficientData = .insufficientData ∧
    (runAll cfg fx ss).length = ss.length ∧
    (∀ j, j < ss.length →
      (runAll cfg fx ss).getD j .insufficientData =
        analyzeTicker cfg fx (ss.getD j [])) := by
  have hmap : ∀ j, j < ss.length →
      (runAll cfg fx ss).getD j .insufficientData =
        analyzeTicker cfg fx (ss.getD j []) := by
    intro j hj
    rw [runAll, List.getD_eq_getElem?_getD, List.getElem?_map,
      List.getElem?_eq_getElem hj, List.getD_eq_getElem?_getD,
      List.getElem?_eq_getElem hj]
    rfl
  refine ⟨?_, ?_, hmap⟩
  · rw [hmap k hk, analyzeTicker, if_pos hshort]
  · rw [runAll, List.length_map]

/-- Witness for C5: the 100-bar series in the demo watchlist is reported as
insufficient data while the 250-bar series is still analyzed on its own. -/
theorem short_series_insufficient_witness :
    (runAll demoConfig 150 demoWatch).getD 0 .insufficientData = .insufficientData ∧
    (runAll demoConfig 150 demoWatch).length = demoWatch.length ∧
    (∀ j, j < demoWatch.length →
      (runAll demoConfig 150 demoWatch).getD j .insufficientData =
        analyzeTicker demoConfig 150 (demoWatch.getD j [])) :=
  short_series_insufficient demoConfig 150 demoWatch 0 (by decide)
    (by rw [show demoWatch.getD 0 [] = shortSeries from rfl, shortSeries_length]
        norm_num)

/-- Claim C7: once the length guard passes, the trend is bullish exactly when
the latest close strictly exceeds the latest SMA 200, and a stop-loss and
share-count recommendation is produced exactly when the trend is bullish; a
bearish trend carries no recommendation. -/
theorem trend_gates_recommendation (cfg : AccountConfig) (fx : ℚ) (s : List Bar)
    (h : 250 ≤ s.length) :
    ∃ r : Report, analyzeTicker cfg fx s = .report r ∧
      (r.trend = .bullish ↔
        (sma200 s (s.length - 1)).getD 0 < closeAt s (s.length - 1)) ∧
      (r.trend = .bearish ↔
        ¬ (sma200 s (s.length - 1)).getD 0 < closeAt s (s.length - 1)) ∧
      (r.recommendation.isSome = true ↔ r.trend = .bullish) ∧
      (r.trend = .bullish →
        r.recommendation = some (stop_loss (closeAt s (s.length - 1))
            ((atr s (s.length - 1)).getD 0) cfg.mult,
          computeShares (closeAt s (s.length - 1)) ((atr s (s.length - 1)).getD 0)
            cfg.mult fx cfg.capital cfg.frac)) ∧
      (r.trend = .bearish → r.recommendation = none) := by
  rw [analyzeTicker, if_neg (by omega)]
  refine ⟨_, rfl, ?_⟩
  by_cases hb : (sma200 s (s.length - 1)).getD 0 < closeAt s (s.length - 1)
  · simp [classifyTrend, hb]
  · simp [classifyTrend, hb]

/-- Witness for C7 on the all-constant 250-bar series. -/
theorem trend_gates_recommendation_witness :
    ∃ r : Report, analyzeTicker demoConfig 150 constSeries = .report r ∧
      (r.trend = .bullish ↔
        (sma200 constSeries (constSeries.length - 1)).getD 0 <
          closeAt constSeries (constSeries.length - 1)) ∧
      (r.trend = .bearish ↔
        ¬ (sma200 constSeries (constSeries.length - 1)).getD 0 <
          closeAt constSeries (constSeries.length - 1)) ∧
      (r.recommendation.isSome = true ↔ r.trend = .bullish) ∧
      (r.trend = .bullish →
        r.recommendation = some (stop_loss (closeAt constSeries (constSeries.length - 1))
            ((atr constSeries (constSeries.length - 1)).getD 0) demoConfig.mult,
          computeShares (closeAt constSeries (constSeries.length - 1))
            ((atr constSeries (constSeries.length - 1)).getD 0)
            demoConfig.mult 150 demoConfig.capital demoConfig.frac)) ∧
      (r.trend = .bearish → r.recommendation = none) :=
  trend_gates_recommendation demoConfig 150 constSeries
    (by rw [constSeries_length])

/-- Claim C8: the first bar true range uses only high minus low, and on an
all-constant series the true range is 0 at every bar and the ATR, wherever
defined, is 0. -/
theorem constant_series_tr_atr_zero (s : List Bar) (c : ℚ)
    (hconst : ∀ b ∈ s, b = ⟨c, c, c⟩) :
    (∀ t : List Bar, tr t 0 = highAt t 0 - lowAt t 0) ∧
    (∀ i, i < s.length → tr s i = 0) ∧
    (∀ i v, atr s i = some v → v = 0) := by
  have hbar : ∀ i, i < s.length → s.getD i defaultBar = ⟨c, c, c⟩ := by
    intro i hi
    rw [List.getD_eq_getElem s defaultBar hi]
    exact hconst _ (List.getElem_mem hi)
  have hhigh : ∀ i, i < s.length → highAt s i = c := by
    intro i hi
    rw [highAt, hbar i hi]
  have hlow : ∀ i, i < s.length → lowAt s i = c := by
    intro i hi
    rw [lowAt, hbar i hi]
  have hclose : ∀ i, i < s.length → closeAt s i = c := by
    intro i hi
    rw [closeAt, hbar i hi]
  have htr : ∀ i, i < s.length → tr s i = 0 := by
    intro i hi
    by_cases h0 : i = 0
    · subst h0
      rw [tr_zero, hhigh 0 hi, hlow 0 hi, sub_self]
    · have hi1 : i - 1 < s.length := by omega
      rw [tr_pos s h0, hhigh i hi, hlow i hi, hclose (i - 1) hi1, sub_self,
        abs_zero, max_self, max_self]
  have hatr : ∀ i v, atr s i = some v → v = 0 := by
    intro i v hv
    rw [atr] at hv
    split_ifs at hv with hguard
    · rw [Option.some_inj] at hv
      subst hv
      apply wmean_eq_zero
      intro k hk
      exact htr (i - k) (by omega)
  exact ⟨fun t => tr_zero t, htr, hatr⟩

/-- Witness for C8 on the all-constant 250-bar series. -/
theorem constant_series_tr_atr_zero_witness :
    (∀ t : List Bar, tr t 0 = highAt t 0 - lowAt t 0) ∧
    (∀ i, i < constSeries.length → tr constSeries i = 0) ∧
    (∀ i v, atr constSeries i = some v → v = 0) :=
  constant_series_tr_atr_zero constSeries 100
    (fun _ hb => List.eq_of_mem_replicate hb)

/-- Claim C9 counterexample: on a fourteen-bar series the RSI cell at index
13, i.e. within the first fourteen bars, is already defined (the where-mask
turns the initial NaN close-to-close difference into a 0 gain and a 0 loss),
refuting an undefined prefix of fourteen bars. -/
theorem rsi_defined_at_fourteenth_bar : rsi upSeries2 13 = some 100 := by
  rw [rsi, if_pos ⟨by norm_num, by decide⟩, if_pos avgLoss_upSeries2,
    if_pos avgGain_upSeries2_pos]

/-- Claim C9 (amended): the RSI column and the ATR column are undefined for
the first thirteen bars of any series (not fourteen for RSI: the initial NaN
difference is masked to 0, so the 14-bar rolling means already exist at index
13). -/
theorem indicator_prefix_undefined (s : List Bar) (i : ℕ) (h : i < 13) :
    rsi s i = none ∧ atr s i = none := by
  constructor
  · rw [rsi, if_neg (by omega)]
  · rw [atr, if_neg (by omega)]

/-- Witness for the amended C9 at index 5. -/
theorem indicator_prefix_undefined_witness :
    rsi upSeries 5 = none ∧ atr upSeries 5 = none :=
  indicator_prefix_undefined upSeries 5 (by norm_num)

/-- Claim C10 counterexample: the all-constant 250-bar series passes the
length guard, yet its RSI at the most recent bar is undefined (zero average
gain and zero average loss give rs = 0/0 = NaN), so not all four indicator
values are defined there. -/
theorem rsi_nan_at_last_bar_example :
    250 ≤ constSeries.length ∧ rsi constSeries 249 = none := by
  refine ⟨by rw [constSeries_length], ?_⟩
  rw [rsi, if_pos ⟨by norm_num, by rw [constSeries_length]; norm_num⟩,
    if_pos avgLoss_constSeries,
    if_neg (by rw [avgGain_constSeries]; exact lt_irrefl 0)]

/-- Claim C10 (amended): under the 250-bar guard the three indicator values
the downstream logic consumes at the most recent bar (SMA 200, 52-week high,
ATR) are always defined; the RSI, which is only displayed, can still be
undefined. -/
theorem indicators_defined_at_last_bar (s : List Bar) (h : 250 ≤ s.length) :
    (sma200 s (s.length - 1)).isSome = true ∧
    (high52 s (s.length - 1)).isSome = true ∧
    (atr s (s.length - 1)).isSome = true := by
  refine ⟨?_, ?_, ?_⟩
  · rw [sma200, if_pos (by omega)]
    rfl
  · rw [high52, if_pos (by omega)]
    rfl
  · rw [atr, if_pos (by omega)]
    rfl

/-- Witness for the amended C10 on the all-constant 250-bar series. -/
theorem indicators_defined_at_last_bar_witness :
    (sma200 constSeries (constSeries.length - 1)).isSome = true ∧
    (high52 constSeries (constSeries.length - 1)).isSome = true ∧
    (atr constSeries (constSeries.length - 1)).isSome = true :=
  indicators_defined_at_last_bar constSeries (by rw [constSeries_length])

end StockAnalysis
